import Mathlib

/-!
Shallow embedding of the figure/view/layer composition model of the
`aas-timeseries` package and of its JSON-serialization protocol, together
with theorems settling the specification claims about it.

The embedding covers:
* `aas_timeseries/colors.py` (deterministic color auto-assignment),
* `aas_timeseries/traits.py` (the `Color` trait validation),
* `aas_timeseries/views.py` (`BaseView.xlim` / `BaseView.ylim` setters,
  layer registries, `View.remove`, `View._set_visible`),
* `aas_timeseries/visualization.py` (`_guess_yunit`, `_check_colors`,
  `add_view`, `remove`, and the data-source walk of `save_vega_json`).

Python objects are modelled by explicit structures; Python object identity
is modelled by a numeric `oid` allocated by a counter carried in the figure
state; the mutable per-layer settings dictionaries (`{'visible': True}`)
are modelled as cells of an explicit store so that aliasing between the
base figure and its views is preserved.
-/

namespace AasTs

/-- Model of the astropy units appearing in this repository and its tests
(`u.one`, `u.Jy`, `u.mJy`, `u.m`, `u.s`).  Convertibility
(`Unit.is_equivalent`) holds exactly between units of the same physical
type (flux density for Jy/mJy, and each remaining unit only with itself). -/
inductive PhysUnit
  | one
  | jy
  | mjy
  | meter
  | second
  deriving DecidableEq, Repr

/-- The physical type of a unit, as an index: dimensionless, spectral flux
density, length, time. -/
def PhysUnit.physicalType : PhysUnit → Nat
  | .one => 0
  | .jy => 1
  | .mjy => 1
  | .meter => 2
  | .second => 3

/-- Model of astropy `Unit.is_equivalent`: units are convertible exactly
when they share a physical type. -/
def PhysUnit.isEquivalent (a b : PhysUnit) : Bool :=
  a.physicalType == b.physicalType

/-- How astropy prints the unit (used when formatting error messages in
`views.py`); `u.one` prints as the empty string. -/
def PhysUnit.name : PhysUnit → String
  | .one => ""
  | .jy => "Jy"
  | .mjy => "mJy"
  | .meter => "m"
  | .second => "s"

/-- Python class identity for the objects relevant to color assignment.
`colors.py` imports its classifying classes from `aas_timeseries.marks`,
while every layer constructed by the `add_*` methods of `views.py` is an
instance of one of the classes of `aas_timeseries.layers`; the two modules
define distinct, unrelated classes, so both families are represented. -/
inductive PyClass
  | layersMarkers
  | layersLine
  | layersRange
  | layersVerticalLine
  | layersVerticalRange
  | layersHorizontalLine
  | layersHorizontalRange
  | layersText
  | marksSymbol
  | marksLine
  | marksRange
  | marksVerticalLine
  | marksVerticalRange
  | marksHorizontalLine
  | marksHorizontalRange
  | marksText
  deriving DecidableEq, Repr

/-- A layer object (`aas_timeseries/layers.py`).  `oid` models Python
object identity (layers are distinct objects, compared by identity in the
registries).  `color` is the `Color` trait, `none` being the unset
sentinel.  `dataId` is the identity (`id(time_series)`) of the underlying
table for data-bound layers.  `requiredY` lists the units of the
`(data, colname)` pairs returned by `_required_ydata`, in order. -/
structure Layer where
  cls : PyClass
  oid : Nat
  label : String
  color : Option String
  dataId : Option Nat
  requiredY : List PhysUnit
  deriving DecidableEq, Repr

/-! ### colors.py -/

/-- `Paired_5.hex_colors` from palettable (ColorBrewer qualitative
"Paired" palette, first five entries). -/
def paired5HexColors : List String :=
  ["#A6CEE3", "#1F78B4", "#B2DF8A", "#33A02C", "#FB9A99"]

/-- `ALWAYS_BLACK = (Text,)` in `colors.py`, where `Text` is imported from
`aas_timeseries.marks`. -/
def alwaysBlackClasses : List PyClass := [.marksText]

/-- `BLACK_IF_ONLY_ONE = (Symbol, Line, VerticalLine, HorizontalLine)` in
`colors.py`, all imported from `aas_timeseries.marks`. -/
def blackIfOnlyOneClasses : List PyClass :=
  [.marksSymbol, .marksLine, .marksVerticalLine, .marksHorizontalLine]

/-- The markers of a given concrete class, in input order:
`markers_by_type[type(marker)]` built by the first loop of
`auto_assign_colors`.  None of the classes involved subclasses another, so
grouping by `type` is grouping by the `cls` field. -/
def markersOfType (markers : List Layer) (c : PyClass) : List Layer :=
  markers.filter (fun m => m.cls == c)

/-- The per-marker loop of `auto_assign_colors` (`colors.py` lines 23-32),
threading the `offset` accumulator.  The first argument is the full input
list (used for the `markers_by_type` lookups), the second the remaining
markers. -/
def autoAssignColorsGo (markers : List Layer) : List Layer → Nat → List String
  | [], _ => []
  | m :: rest, offset =>
    if alwaysBlackClasses.contains m.cls then
      "#000000" :: autoAssignColorsGo markers rest offset
    else if blackIfOnlyOneClasses.contains m.cls
        && (markersOfType markers m.cls).length == 1 then
      "#000000" :: autoAssignColorsGo markers rest offset
    else
      let icolor := (markersOfType markers m.cls).findIdx (fun x => x.oid == m.oid)
      let current := (offset + icolor) % 4
      paired5HexColors.getD current "" :: autoAssignColorsGo markers rest (current + 1)

/-- `auto_assign_colors` (`colors.py`): one color string per input marker. -/
def auto_assign_colors (markers : List Layer) : List String :=
  autoAssignColorsGo markers markers 0

/-- The same algorithm as `auto_assign_colors` but with the wrap-around
modulus as a parameter: `auto_assign_colors` is the instance with modulus
4, while the specification's words ("wrapping modulo the palette size")
describe the instance with modulus `paired5HexColors.length = 5`. -/
def autoAssignColorsWrapGo (n : Nat) (markers : List Layer) :
    List Layer → Nat → List String
  | [], _ => []
  | m :: rest, offset =>
    if alwaysBlackClasses.contains m.cls then
      "#000000" :: autoAssignColorsWrapGo n markers rest offset
    else if blackIfOnlyOneClasses.contains m.cls
        && (markersOfType markers m.cls).length == 1 then
      "#000000" :: autoAssignColorsWrapGo n markers rest offset
    else
      let icolor := (markersOfType markers m.cls).findIdx (fun x => x.oid == m.oid)
      let current := (offset + icolor) % n
      paired5HexColors.getD current "" :: autoAssignColorsWrapGo n markers rest (current + 1)

/-- Modulus-parameterized color assignment (see `autoAssignColorsWrapGo`). -/
def auto_assign_colors_wrap (n : Nat) (markers : List Layer) : List String :=
  autoAssignColorsWrapGo n markers markers 0

/-! ### matplotlib.colors.to_hex (external collaborator)

`traits.py` normalizes colors through matplotlib's `to_hex`, an external
library function.  It is modelled here on the inputs this development
needs: `#rrggbb` strings (returned lower-cased), a small table of named
CSS colors, and RGB triples with components in `[0, 1]` (rounded to two
hex digits per channel); any other string raises a `ValueError` inside
matplotlib. -/

/-- Lower-case an ASCII upper-case letter, leave anything else alone. -/
def lowerAsciiChar (c : Char) : Char :=
  if 65 ≤ c.toNat ∧ c.toNat ≤ 90 then Char.ofNat (c.toNat + 32) else c

/-- Lower-case the ASCII letters of a string. -/
def lowerAscii (s : String) : String :=
  String.mk (s.data.map lowerAsciiChar)

/-- Whether a character is a hexadecimal digit. -/
def isHexDigitChar (c : Char) : Bool :=
  (48 ≤ c.toNat && c.toNat ≤ 57) || (97 ≤ c.toNat && c.toNat ≤ 102)
    || (65 ≤ c.toNat && c.toNat ≤ 70)

/-- Whether a string is a `#rrggbb` hex color specification. -/
def isHexColorStr (s : String) : Bool :=
  match s.data with
  | '#' :: rest => rest.length == 6 && rest.all isHexDigitChar
  | _ => false

/-- The named colors this development needs (a fragment of matplotlib's
color table). -/
def namedColorHex : List (String × String) :=
  [("black", "#000000"), ("white", "#ffffff"), ("orange", "#ffa500"),
   ("red", "#ff0000"), ("blue", "#0000ff")]

/-- `matplotlib.colors.to_hex` on a string: `some` canonical lower-case
hex on a valid color specification, `none` when matplotlib raises
`ValueError`. -/
def strToHex? (s : String) : Option String :=
  if isHexColorStr s then some (lowerAscii s)
  else (namedColorHex.find? (fun p => p.1 == s)).map (·.2)

/-- The hex digit for a value below 16 (lower-case letters). -/
def hexDigitChar (n : Nat) : Char :=
  if n < 10 then Char.ofNat (48 + n) else Char.ofNat (87 + n)

/-- Two lower-case hex digits for a byte. -/
def byteToHex (n : Nat) : List Char :=
  [hexDigitChar (n / 16 % 16), hexDigitChar (n % 16)]

/-- Round a channel fraction in `[0, 1]` to a byte, as matplotlib does. -/
def channelByte (x : Rat) : Nat :=
  (255 * x + 1 / 2).floor.toNat

/-- `matplotlib.colors.to_hex` on an RGB triple of fractions. -/
def rgbToHex (r g b : Rat) : String :=
  String.mk ('#' :: (byteToHex (channelByte r) ++ byteToHex (channelByte g)
    ++ byteToHex (channelByte b)))

/-! ### traits.py: the Color trait -/

/-- Python exceptions raised by the embedded code.  `attributeError attr`
models `AttributeError: 'Data' object has no attribute '<attr>'`, raised
when a caller invokes a method the `Data` class of `data.py` does not
define. -/
inductive PyError
  | traitError (msg : String)
  | valueError (msg : String)
  | typeError (msg : String)
  | unitsError (msg : String)
  | indexError
  | attributeError (attr : String)
  deriving DecidableEq, Repr

/-- The values a caller may assign to a `Color` trait: `None`, a string, a
tuple of 3 or 4 floats, or anything else. -/
inductive ColorValue
  | pyNone
  | pyStr (s : String)
  | rgb (r g b : Rat)
  | rgba (r g b a : Rat)
  | otherValue
  deriving DecidableEq

/-- `Color.validate` (`traits.py` lines 210-219).  `hasOpacity` is
`hasattr(obj, 'opacity')` for the owning layer (true for every layer kind
in `layers.py`).  `None` is stored as the unset sentinel; strings and
3-tuples go through `to_hex` (whose `ValueError` on an unrecognized string
or an out-of-range component propagates); everything else — including
4-tuples — raises a `TraitError`. -/
def color_validate (hasOpacity : Bool) (v : ColorValue) :
    Except PyError (Option String) :=
  match v with
  | .pyNone => .ok none
  | .pyStr s =>
    match strToHex? s with
    | some h => .ok (some h)
    | none => .error (.valueError ("Invalid RGBA argument: " ++ s))
  | .rgb r g b =>
    if 0 ≤ r ∧ r ≤ 1 ∧ 0 ≤ g ∧ g ≤ 1 ∧ 0 ≤ b ∧ b ≤ 1 then
      .ok (some (rgbToHex r g b))
    else
      .error (.valueError "RGBA values should be within 0-1 range")
  | .rgba _ _ _ _ =>
    .error (.traitError (if hasOpacity then
      "color must be a string or a tuple of 3 or 4 floats"
    else
      "color must be a string or a tuple of 3 floats"))
  | .otherValue =>
    .error (.traitError (if hasOpacity then
      "color must be a string or a tuple of 3 or 4 floats"
    else
      "color must be a string or a tuple of 3 floats"))

/-! ### visualization.py: _check_colors -/

/-- The assignment loop of `_check_colors` (`visualization.py` lines
162-164): `zip(self._layers, colors)` truncates at the shorter list, and
`layer.color = color` stores `to_hex(color)` — for the hex strings
produced by `auto_assign_colors` this is their lower-casing. -/
def checkColorsGo (overrideStyle : Bool) : List Layer → List String → List Layer
  | l :: ls, c :: cs =>
    (if overrideStyle || l.color.isNone then { l with color := some (lowerAscii c) } else l)
      :: checkColorsGo overrideStyle ls cs
  | _, [] => []
  | [], _ => []

/-- `InteractiveTimeSeriesFigure._check_colors` (`visualization.py` lines
159-164), acting on the figure's layer list. -/
def check_colors (layers : List Layer) (overrideStyle : Bool) : List Layer :=
  checkColorsGo overrideStyle layers (auto_assign_colors layers)

/-! ### views.py: the xlim / ylim setters -/

/-- A Python value that can appear as a limit endpoint: a `Time` instance
(instant modelled as an integer), a string (carrying the result of
`Time(s)` — `none` when astropy fails to parse it), a plain number, or a
`Quantity`. -/
inductive PyVal
  | timeVal (t : Int)
  | strVal (parsed : Option Int)
  | numVal (q : Rat)
  | quantityVal (q : Rat) (unit : PhysUnit)
  deriving DecidableEq, Repr

/-- A Python value assigned to a limit property: either a tuple/list of
endpoint values, or some non-sequence object. -/
inductive PySeqVal
  | notSeq
  | seq (xs : List PyVal)
  deriving DecidableEq, Repr

/-- `isinstance(x, u.Quantity)` on an endpoint value. -/
def PyVal.isQuantity : PyVal → Bool
  | .quantityVal _ _ => true
  | _ => false

/-- The string-to-`Time` coercion of the `xlim` setter:
`if isinstance(start, str): start = Time(start)` — astropy raises on an
unparseable string. -/
def coerceTime : PyVal → Except PyError PyVal
  | .strVal (some t) => .ok (.timeVal t)
  | .strVal none => .error (.valueError "Input values did not match any of the formats where the format keyword is optional")
  | v => .ok v

/-- `BaseView.xlim` setter (`views.py` lines 96-107): reject anything that
is not a two-element tuple/list, coerce strings through `Time`, then
require both endpoints to be `Time` instances.  (The `TypeError` message
reproduces the source's spelling.) -/
def set_xlim (v : PySeqVal) : Except PyError (PyVal × PyVal) :=
  match v with
  | .notSeq => .error (.valueError "xlim should be a tuple of two elements")
  | .seq xs =>
    match xs with
    | [s, e] => do
      let start ← coerceTime s
      let stop ← coerceTime e
      match start, stop with
      | .timeVal a, .timeVal b => .ok (.timeVal a, .timeVal b)
      | _, _ => .error (.typeError "xlim should be a typle of two Time instances")
    | _ => .error (.valueError "xlim should be a tuple of two elements")

/-- `BaseView.ylim` setter (`views.py` lines 116-126): it indexes
`range[0]` and `range[1]` (so a non-sequence raises `TypeError` and a
sequence shorter than two raises `IndexError`, while extra trailing
elements are silently kept), demands that either both or neither of the
first two endpoints be a `Quantity`, and for two quantities that their
units be mutually convertible; the whole input is then stored. -/
def set_ylim (v : PySeqVal) : Except PyError (List PyVal) :=
  match v with
  | .notSeq => .error (.typeError "object is not subscriptable")
  | .seq xs =>
    match xs[0]?, xs[1]? with
    | some a, some b =>
      if a.isQuantity == b.isQuantity then
        match a, b with
        | .quantityVal _ ua, .quantityVal _ ub =>
          if ua.isEquivalent ub then .ok xs
          else .error (.unitsError ("The units of ymin (" ++ ua.name
            ++ ") are not compatible with the units of ymax (" ++ ub.name ++ ")"))
        | _, _ => .ok xs
      else
        .error (.valueError "Either both or neither limit has to be specified as a Quantity")
    | _, _ => .error .indexError

/-- What the `xlim` setter actually accepts, written from the amended
claim: exactly two endpoints, each a `Time` instance or a string astropy
can parse as one. -/
def xlimAccepts (v : PySeqVal) : Bool :=
  match v with
  | .seq [a, b] => (coerceTime a).toBool && (coerceTime b).toBool &&
      (match coerceTime a, coerceTime b with
       | .ok (.timeVal _), .ok (.timeVal _) => true
       | _, _ => false)
  | _ => false

/-- What the `ylim` setter actually accepts, written from the amended
claim: a sequence with at least two endpoints whose first two are either
both non-quantities, or both quantities with mutually convertible units;
the length is otherwise unconstrained. -/
def ylimAccepts (v : PySeqVal) : Bool :=
  match v with
  | .notSeq => false
  | .seq xs =>
    match xs[0]?, xs[1]? with
    | some a, some b =>
      match a, b with
      | .quantityVal _ ua, .quantityVal _ ub => ua.isEquivalent ub
      | .quantityVal _ _, _ => false
      | _, .quantityVal _ _ => false
      | _, _ => true
    | _, _ => false

/-! ### The figure / view object graph

`BaseView` holds an ordered layer registry `_layers` mapping each layer to
a mutable settings dictionary `{'visible': True}`, and the figure
additionally holds the `Data` registry (keyed by table identity) and the
view list.  A `View` adds an `_inherited_layers` registry whose settings
dictionaries are the very objects held by the figure.  Settings
dictionaries are modelled as cells of the store `cells`, registries as
association lists of `(layer, cell)` pairs in insertion order. -/

/-- A `View` (`views.py`): the inherited registry (snapshot taken at
creation) and the view-local `_layers` registry.  `_data` is shared with
the parent figure and therefore lives on `Figure`. -/
structure ViewState where
  inheritedLayers : List (Layer × Nat)
  viewLayers : List (Layer × Nat)
  deriving DecidableEq, Repr

/-- An `InteractiveTimeSeriesFigure`: the base view's `_layers` registry,
the `_views` list, the settings-dictionary store, the `_data` registry
keys (table identities in registration order), the `_ylim` state, the
`yunit` policy (`none` models `'auto'`), and the fresh-object counter
modelling Python object allocation. -/
structure Figure where
  figLayers : List (Layer × Nat)
  views : List ViewState
  cells : List Bool
  dataIds : List Nat
  ylim : Option (List PyVal)
  yunit : Option PhysUnit
  nextOid : Nat
  deriving DecidableEq, Repr

/-- A fresh figure (`InteractiveTimeSeriesFigure.__init__`). -/
def figure0 : Figure :=
  { figLayers := [], views := [], cells := [], dataIds := [],
    ylim := none, yunit := none, nextOid := 0 }

/-- The construction parameters of an `add_*` call: the class of layer
being built, its label and optional explicit color, the identity of the
table passed (for data-bound kinds), and the units of the columns its
`_required_ydata` will report. -/
structure LayerSpec where
  cls : PyClass
  label : String
  color : Option String
  dataId : Option Nat
  requiredY : List PhysUnit
  deriving DecidableEq, Repr

/-- Membership in a list of numeric identities. -/
def containsNat : List Nat → Nat → Bool
  | [], _ => false
  | x :: xs, y => (x == y) || containsNat xs y

/-- Register the table in the `_data` registry if its identity is new
(`if id(time_series) not in self._data: self._data[id(...)] = Data(...)`,
`views.py`). -/
def registerData (ids : List Nat) : Option Nat → List Nat
  | none => ids
  | some d => if containsNat ids d then ids else ids ++ [d]

/-- Build the layer object for an `add_*` call, consuming a fresh object
identity. -/
def buildLayer (spec : LayerSpec) (oid : Nat) : Layer :=
  { cls := spec.cls, oid := oid, label := spec.label, color := spec.color,
    dataId := spec.dataId, requiredY := spec.requiredY }

/-- An `add_*` call on the base figure (`views.py`): register the data if
needed, construct the layer, and append it to `_layers` with a fresh
settings dictionary `{'visible': True}`. -/
def figure_add_layer (F : Figure) (spec : LayerSpec) : Figure × Layer :=
  let L := buildLayer spec F.nextOid
  ({ F with
      figLayers := F.figLayers ++ [(L, F.cells.length)],
      cells := F.cells ++ [true],
      dataIds := registerData F.dataIds spec.dataId,
      nextOid := F.nextOid + 1 }, L)

/-- An `add_*` call on the view at index `i` (a `View` shares the parent
figure's `_data` registry, so data registration lands on the figure). -/
def view_add_layer (F : Figure) (i : Nat) (spec : LayerSpec) : Figure × Layer :=
  match F.views[i]? with
  | none => (F, buildLayer spec F.nextOid)
  | some v =>
    let L := buildLayer spec F.nextOid
    ({ F with
        views := F.views.set i { v with viewLayers := v.viewLayers ++ [(L, F.cells.length)] },
        cells := F.cells ++ [true],
        dataIds := registerData F.dataIds spec.dataId,
        nextOid := F.nextOid + 1 }, L)

/-- The layer-selection argument of `add_view`. -/
inductive AddViewMode
  | default
  | includeLayers (xs : List Layer)
  | excludeLayers (xs : List Layer)
  | emptyView
  deriving DecidableEq, Repr

/-- Registry membership by object identity (`layer in self._layers`). -/
def regContains (reg : List (Layer × Nat)) (L : Layer) : Bool :=
  reg.any (fun p => p.1.oid == L.oid)

/-- Registry lookup by object identity, returning the stored entry. -/
def regFind? (reg : List (Layer × Nat)) (L : Layer) : Option (Layer × Nat) :=
  reg.find? (fun p => p.1.oid == L.oid)

/-- `InteractiveTimeSeriesFigure.add_view` (`visualization.py` lines
100-121): build the inherited registry (a one-time snapshot whose settings
dictionaries are shared with the figure's entries), reject `include` /
`exclude` entries missing from the base figure, append the view and return
its index. -/
def add_view (F : Figure) (mode : AddViewMode) : Except PyError (Figure × Nat) :=
  match mode with
  | .emptyView =>
    .ok ({ F with views := F.views ++ [{ inheritedLayers := [], viewLayers := [] }] },
         F.views.length)
  | .includeLayers xs =>
    match xs.find? (fun L => !(regContains F.figLayers L)) with
    | some L => .error (.valueError ("Layer <" ++ toString L.oid
        ++ "> does not exist in base figure"))
    | none =>
      let inh := xs.filterMap (fun L => regFind? F.figLayers L)
      .ok ({ F with views := F.views ++ [{ inheritedLayers := inh, viewLayers := [] }] },
           F.views.length)
  | .excludeLayers xs =>
    match xs.find? (fun L => !(regContains F.figLayers L)) with
    | some L => .error (.valueError ("Layer <" ++ toString L.oid
        ++ "> does not exist in base figure"))
    | none =>
      let inh := F.figLayers.filter (fun p => !(xs.any (fun L => L.oid == p.1.oid)))
      .ok ({ F with views := F.views ++ [{ inheritedLayers := inh, viewLayers := [] }] },
           F.views.length)
  | .default =>
    .ok ({ F with views := F.views ++ [{ inheritedLayers := F.figLayers, viewLayers := [] }] },
         F.views.length)

/-- `dict.pop(key)`: drop the entry with the given object identity (keys
of a Python dict are unique, so only the first match can exist). -/
def popEntry : List (Layer × Nat) → Nat → List (Layer × Nat)
  | [], _ => []
  | p :: rest, o => if p.1.oid == o then rest else p :: popEntry rest o

/-- `View.layers` (`views.py` lines 555-557): inherited layers followed by
view-local layers. -/
def viewLayerList (v : ViewState) : List (Layer × Nat) :=
  v.inheritedLayers ++ v.viewLayers

/-- `View.remove` (`views.py` lines 544-553): pop from the inherited
registry, else from the view-local one, else raise naming the layer's
label and the view. -/
def view_remove (v : ViewState) (L : Layer) : Except PyError ViewState :=
  if regContains v.inheritedLayers L then
    .ok { v with inheritedLayers := popEntry v.inheritedLayers L.oid }
  else if regContains v.viewLayers L then
    .ok { v with viewLayers := popEntry v.viewLayers L.oid }
  else
    .error (.valueError ("Layer '" ++ L.label ++ "' is not in view"))

/-- `InteractiveTimeSeriesFigure.remove` (`visualization.py` lines
492-502): pop the layer from the figure's own registry (raising if it is
not there), then cascade `view.remove` to every view whose concatenated
layer list contains it. -/
def figure_remove (F : Figure) (L : Layer) : Except PyError Figure :=
  if regContains F.figLayers L then
    .ok { F with
          figLayers := popEntry F.figLayers L.oid,
          views := F.views.map (fun v =>
            if regContains (viewLayerList v) L then
              match view_remove v L with
              | .ok v' => v'
              | .error _ => v
            else v) }
  else
    .error (.valueError ("Layer '" ++ L.label ++ "' is not in figure"))

/-- `View.remove` invoked on the view at index `i` of the figure: only
that view is updated (the figure's own registry is untouched by the
source's `View.remove`). -/
def figure_view_remove (F : Figure) (i : Nat) (L : Layer) : Except PyError Figure :=
  match F.views[i]? with
  | none => .error .indexError
  | some v => (view_remove v L).map (fun v' => { F with views := F.views.set i v' })

/-- A view with every entry for the given layer identity removed from both
registries. -/
def viewFiltered (v : ViewState) (L : Layer) : ViewState :=
  { inheritedLayers := v.inheritedLayers.filter (fun p => !(p.1.oid == L.oid)),
    viewLayers := v.viewLayers.filter (fun p => !(p.1.oid == L.oid)) }

/-- `View._set_visible` (`views.py` lines 533-542) on the view at index
`i`: find the layer's settings dictionary in the view-local registry, else
in the inherited registry, and mutate its `'visible'` entry; raise if the
layer is in neither. -/
def view_set_visible (F : Figure) (i : Nat) (L : Layer) (visible : Bool) :
    Except PyError Figure :=
  match F.views[i]? with
  | none => .error .indexError
  | some v =>
    match regFind? v.viewLayers L with
    | some p => .ok { F with cells := F.cells.set p.2 visible }
    | none =>
      match regFind? v.inheritedLayers L with
      | some p => .ok { F with cells := F.cells.set p.2 visible }
      | none => .error (.valueError ("Layer <" ++ toString L.oid ++ "> not in view"))

/-- The `'visible'` flag recorded for a registry entry (the serializer
reads `settings['visible']`). -/
def cellValue (F : Figure) (c : Nat) : Bool :=
  F.cells.getD c true

/-- The visibility of a layer as the serializer sees it from the view at
index `i` (looking the layer up in the view's concatenated registry). -/
def viewVisibility (F : Figure) (i : Nat) (L : Layer) : Option Bool :=
  (F.views[i]?).bind (fun v => (regFind? (viewLayerList v) L).map (fun p => cellValue F p.2))

/-- The visibility of a layer as recorded in the base figure's registry. -/
def figureVisibility (F : Figure) (L : Layer) : Option Bool :=
  (regFind? F.figLayers L).map (fun p => cellValue F p.2)

/-! ### visualization.py: y-unit resolution -/

/-- The scan order of the claim's resolution rule: the unit of the first
`(data, colname)` pair reported by the first layer whose `_required_ydata`
is non-empty (this is what the claim says the scan of `_guess_yunit`
returns). -/
def firstRequiredYUnit : List Layer → Option PhysUnit
  | [] => none
  | l :: rest =>
    match l.requiredY with
    | [] => firstRequiredYUnit rest
    | u :: _ => some u

/-- Whether the scan of `_guess_yunit` reaches a `(data, colname)` pair at
all: some layer of the base figure, or some view-local layer, reports a
non-empty `_required_ydata`. -/
def scanHasRequiredY (F : Figure) : Bool :=
  (F.figLayers.map (·.1)).any (fun l => !l.requiredY.isEmpty)
    || F.views.any (fun v => (v.viewLayers.map (·.1)).any (fun l => !l.requiredY.isEmpty))

/-- `InteractiveTimeSeriesFigure._guess_yunit` (`visualization.py` lines
72-98): if `ylim` is set and its first endpoint is a `Quantity`, its unit.
Otherwise the scan over the figure's layers and then each view's local
`_layers` evaluates `data.unit(colname)` on the first required-y pair it
finds — but the `Data` class of `data.py` defines no `unit` method, so the
scan raises `AttributeError` as soon as any layer reports required y-data.
Only when no layer does is dimensionless returned. -/
def guess_yunit (F : Figure) : Except PyError PhysUnit :=
  match F.ylim with
  | some (PyVal.quantityVal _ u :: _) => .ok u
  | _ =>
    if scanHasRequiredY F then .error (.attributeError "unit")
    else .ok .one

/-- The y-unit used by `save_vega_json` / `save_static` (`visualization.py`
line 280): the explicit `yunit` unless the policy is `'auto'`, in which
case `_guess_yunit` runs (and may raise). -/
def resolved_yunit (F : Figure) : Except PyError PhysUnit :=
  match F.yunit with
  | some u => .ok u
  | none => guess_yunit F

/-- The y-unit resolution rule as the claim states it (no `ylim` step, no
failure): explicit unit if set, else the first required-y-data unit
scanning figure layers then view-local layers, else dimensionless. -/
def resolved_yunit_claimed (F : Figure) : PhysUnit :=
  match F.yunit with
  | some u => u
  | none =>
    match firstRequiredYUnit (F.figLayers.map (·.1)) with
    | some u => u
    | none =>
      match (F.views.map (fun v => firstRequiredYUnit (v.viewLayers.map (·.1)))).findSome? id with
      | some u => u
      | none => .one

/-- The y-unit resolution rule as amended: explicit unit if set; else the
unit of a `Quantity` `ylim` first endpoint if one is set; else
`AttributeError` as soon as any figure or view-local layer reports
required y-data (`Data` defines no `unit` method); else dimensionless. -/
def resolved_yunit_amended (F : Figure) : Except PyError PhysUnit :=
  match F.yunit with
  | some u => .ok u
  | none =>
    match F.ylim with
    | some (PyVal.quantityVal _ u :: _) => .ok u
    | _ =>
      if scanHasRequiredY F then .error (.attributeError "unit")
      else .ok .one

/-- Whether `ylim` is set with a `Quantity` first endpoint (the input the
claim says must not matter). -/
def ylimHeadQuantity (F : Figure) : Bool :=
  match F.ylim with
  | some (PyVal.quantityVal _ _ :: _) => true
  | _ => false

/-- Assigning to the figure's `ylim` property: the setter validates and
stores the value. -/
def figure_set_ylim (F : Figure) (v : PySeqVal) : Except PyError Figure :=
  (set_ylim v).map (fun r => { F with ylim := some r })

/-! ### save_vega_json: data sources and CSV side files -/

/-- Every layer object reachable from the figure: the base registry plus
every view's inherited and local registries. -/
def allLayers (F : Figure) : List Layer :=
  F.figLayers.map (·.1)
    ++ F.views.flatMap (fun v => (viewLayerList v).map (·.1))

/-- The identities of the tables referenced by some layer of the figure or
of one of its views. -/
def referencedTables (F : Figure) : List Nat :=
  (allLayers F).filterMap (·.dataId)

/-- Whether the export table built for the `_data` entry with table
identity `d` has a required value column: some layer (of the figure or
any view) references the table and reports required y-data.  For such a
column the per-data loop of `save_vega_json` calls
`data.column_to_values(colname, yunit)` (`visualization.py` line 346) —
a method the `Data` class of `data.py` does not define. -/
def requiresConversion (F : Figure) (d : Nat) : Bool :=
  (allLayers F).any (fun l => l.dataId == some d && !l.requiredY.isEmpty)

/-- The per-data loop of `save_vega_json` with `embed_data=False`
(`visualization.py` lines 324-386), for absolute-time figures.  The loop
visits one `_data` entry per wrapper; a plain `Time` time column is
serialized directly, but as soon as an entry's export table needs a
required value column the loop raises `AttributeError` at
`data.column_to_values` — before that entry's `table.write` — aborting
the export with only the files of earlier entries written.  An entry with
no required value column is written as `data_<id>.csv` (the source names
files from `Data.uuid`, one fresh UUID per wrapper; the registry key —
the table's identity — stands in for it, being likewise unique per
wrapper).  Returns the files actually written and the exception, if any. -/
def saveCsvGo (F : Figure) : List Nat → List String × Option PyError
  | [] => ([], none)
  | d :: rest =>
    if requiresConversion F d then
      ([], some (.attributeError "column_to_values"))
    else
      (("data_" ++ toString d ++ ".csv") :: (saveCsvGo F rest).1,
        (saveCsvGo F rest).2)

/-- The CSV side files written (and the exception raised, if any) by
`save_vega_json` with `embed_data=False`: the loop over
`self._data.values()` (see `saveCsvGo`). -/
def save_csv_files (F : Figure) : List String × Option PyError :=
  saveCsvGo F F.dataIds

/-- A caller action in an authoring session that only adds content: an
`add_*` call on the figure, an `add_*` call on the view at an index, or an
`add_view` call (a failing `add_view` leaves the figure unchanged). -/
inductive FigOp
  | figAdd (spec : LayerSpec)
  | viewAdd (i : Nat) (spec : LayerSpec)
  | addView (mode : AddViewMode)
  deriving Repr

/-- Apply one caller action to the figure state. -/
def apply_op (F : Figure) : FigOp → Figure
  | .figAdd spec => (figure_add_layer F spec).1
  | .viewAdd i spec =>
    match F.views[i]? with
    | none => F
    | some _ => (view_add_layer F i spec).1
  | .addView mode =>
    match add_view F mode with
    | .ok (F', _) => F'
    | .error _ => F

/-- Run an authoring session from a fresh figure. -/
def run_ops (ops : List FigOp) : Figure :=
  ops.foldl apply_op figure0

/-- Boolean distinctness of a list of numbers. -/
def allDistinct : List Nat → Bool
  | [] => true
  | x :: xs => !(containsNat xs x) && allDistinct xs

/-- Well-formedness: every layer object identity reachable from the figure
is below the allocation counter (true of every state the API produces). -/
def oidsBounded (F : Figure) : Bool :=
  (allLayers F).all (fun l => l.oid < F.nextOid)

/-- Well-formedness: every settings-cell index reachable from the figure
points into the store (true of every state the API produces). -/
def cellsBounded (F : Figure) : Bool :=
  (F.figLayers ++ F.views.flatMap viewLayerList).all (fun p => p.2 < F.cells.length)

/-- Well-formedness for removal: object identities are distinct within the
figure registry and within each view's concatenated registry (Python dict
keys are unique, and a layer object is never both inherited and
view-local). -/
def removalWF (F : Figure) : Bool :=
  allDistinct (F.figLayers.map (·.1.oid))
    && F.views.all (fun v => allDistinct ((viewLayerList v).map (·.1.oid)))

/-! ### Concrete example states

Small concrete sessions used to exhibit counterexamples and to witness the
hypotheses of the general theorems. -/

/-- A Text layer with unset color (as built by `add_text`). -/
def exTextLayer : Layer :=
  { cls := .layersText, oid := 0, label := "Label", color := none,
    dataId := none, requiredY := [] }

/-- A Markers layer with unset color (as built by `add_markers`). -/
def exMarkersLayer : Layer :=
  { cls := .layersMarkers, oid := 0, label := "Markers", color := none,
    dataId := none, requiredY := [] }

/-- Five Markers layers with unset colors, in insertion order. -/
def exFiveMarkers : List Layer :=
  [{ cls := .layersMarkers, oid := 0, label := "M0", color := none, dataId := none, requiredY := [] },
   { cls := .layersMarkers, oid := 1, label := "M1", color := none, dataId := none, requiredY := [] },
   { cls := .layersMarkers, oid := 2, label := "M2", color := none, dataId := none, requiredY := [] },
   { cls := .layersMarkers, oid := 3, label := "M3", color := none, dataId := none, requiredY := [] },
   { cls := .layersMarkers, oid := 4, label := "M4", color := none, dataId := none, requiredY := [] }]

/-- A Line layer whose color was explicitly set. -/
def exColoredLayer : Layer :=
  { cls := .layersLine, oid := 7, label := "L", color := some "#ff0000",
    dataId := none, requiredY := [] }

/-- An `add_markers` call binding a dimensionless column of table 10. -/
def exC2Spec : LayerSpec :=
  { cls := .layersMarkers, label := "Markers", color := none,
    dataId := some 10, requiredY := [.one] }

/-- A figure holding one markers layer on a dimensionless column. -/
def exC2Fig : Figure := (figure_add_layer figure0 exC2Spec).1

/-- Jansky-quantity y-limits. -/
def exC2Lims : PySeqVal := .seq [.quantityVal 1 .jy, .quantityVal 2 .jy]

/-- `exC2Fig` after assigning the Jansky limits to `ylim`. -/
def exC2Fig2 : Figure :=
  { exC2Fig with ylim := some [.quantityVal 1 .jy, .quantityVal 2 .jy] }

/-- An `add_markers` call on table 10 with a Jansky column. -/
def exSpecA : LayerSpec :=
  { cls := .layersMarkers, label := "Markers", color := none,
    dataId := some 10, requiredY := [.jy] }

/-- An `add_line` call on table 10 with a Jansky column. -/
def exSpecB : LayerSpec :=
  { cls := .layersLine, label := "Line", color := none,
    dataId := some 10, requiredY := [.jy] }

/-- First `add_markers` call on a fresh figure. -/
def exStep1 : Figure × Layer := figure_add_layer figure0 exSpecA

/-- The markers layer of the session. -/
def exLayerA : Layer := exStep1.2

/-- Second `add_*` call of the session. -/
def exStep2 : Figure × Layer := figure_add_layer exStep1.1 exSpecB

/-- The line layer of the session. -/
def exLayerB : Layer := exStep2.2

/-- The figure after both `add_*` calls. -/
def exFigAB : Figure := exStep2.1

/-- The session figure after a first `add_view` call with default
inheritance. -/
def exFigV1 : Figure :=
  ((add_view exFigAB .default).toOption.getD (exFigAB, 0)).1

/-- The session figure after a second `add_view` call with default
inheritance. -/
def exFigV2 : Figure :=
  ((add_view exFigV1 .default).toOption.getD (exFigV1, 0)).1

/-- The inherited-snapshot view created by the session's first `add_view`
call. -/
def exV1 : ViewState := { inheritedLayers := exFigAB.figLayers, viewLayers := [] }

/-! ## Helper lemmas -/

theorem autoAssignColorsGo_eq_wrap4 (markers : List Layer) :
    ∀ (rest : List Layer) (off : Nat),
      autoAssignColorsGo markers rest off = autoAssignColorsWrapGo 4 markers rest off := by
  intro rest
  induction rest with
  | nil => intro off; rfl
  | cons m ms ih =>
    intro off
    simp only [autoAssignColorsGo, autoAssignColorsWrapGo, ih]

theorem pairedGetD_mem_take4 (k : Nat) (h : k < 4) :
    paired5HexColors.getD k "" ∈ paired5HexColors.take 4 := by
  interval_cases k <;> decide

theorem autoAssignColorsGo_mem_black_or_take4 (markers : List Layer) :
    ∀ (rest : List Layer) (off : Nat) (c : String),
      c ∈ autoAssignColorsGo markers rest off →
        c = "#000000" ∨ c ∈ paired5HexColors.take 4 := by
  intro rest
  induction rest with
  | nil => intro off c h; simp [autoAssignColorsGo] at h
  | cons m ms ih =>
    intro off c h
    simp only [autoAssignColorsGo] at h
    split at h
    · rcases List.mem_cons.mp h with h1 | h1
      · exact Or.inl h1
      · exact ih _ _ h1
    · split at h
      · rcases List.mem_cons.mp h with h1 | h1
        · exact Or.inl h1
        · exact ih _ _ h1
      · rcases List.mem_cons.mp h with h1 | h1
        · exact h1 ▸ Or.inr (pairedGetD_mem_take4 _ (Nat.mod_lt _ (by decide)))
        · exact ih _ _ h1

theorem autoAssignColorsGo_length (markers : List Layer) :
    ∀ (rest : List Layer) (off : Nat),
      (autoAssignColorsGo markers rest off).length = rest.length := by
  intro rest
  induction rest with
  | nil => intro off; rfl
  | cons m ms ih =>
    intro off
    simp only [autoAssignColorsGo]
    split
    · simp [ih]
    · split
      · simp [ih]
      · simp [ih]

theorem auto_assign_colors_length (ms : List Layer) :
    (auto_assign_colors ms).length = ms.length :=
  autoAssignColorsGo_length ms ms 0

theorem checkColorsGo_length (b : Bool) :
    ∀ (ls : List Layer) (cs : List String), cs.length = ls.length →
      (checkColorsGo b ls cs).length = ls.length := by
  intro ls
  induction ls with
  | nil => intro cs _; cases cs <;> rfl
  | cons x xs ih =>
    intro cs hlen
    cases cs with
    | nil => simp at hlen
    | cons y ys =>
      simp only [checkColorsGo, List.length_cons]
      simp only [List.length_cons, Nat.succ.injEq] at hlen
      rw [ih ys hlen]

theorem checkColorsGo_getElem? (b : Bool) :
    ∀ (ls : List Layer) (cs : List String) (i : Nat) (l : Layer) (c : String),
      ls[i]? = some l → cs[i]? = some c →
      (checkColorsGo b ls cs)[i]? =
        some (if b || l.color.isNone then { l with color := some (lowerAscii c) } else l) := by
  intro ls
  induction ls with
  | nil => intro cs i l c h1 _; simp at h1
  | cons x xs ih =>
    intro cs i l c h1 h2
    cases cs with
    | nil => simp at h2
    | cons y ys =>
      cases i with
      | zero =>
        simp only [List.getElem?_cons_zero, Option.some.injEq] at h1 h2
        subst h1; subst h2
        simp only [checkColorsGo, List.getElem?_cons_zero]
      | succ n =>
        simp only [List.getElem?_cons_succ] at h1 h2
        simp only [checkColorsGo, List.getElem?_cons_succ]
        exact ih ys n l c h1 h2

/-! ## Claim theorems -/

/-- **C1** (evaluation at the failing input): serializing with
`override_style=False` a figure whose only layer is a Text layer with
unset color assigns it the first palette color `#a6cee3`, not black, and
likewise for a figure whose only layer is a Markers layer; the
black-default shortcuts of `auto_assign_colors` never fire, because they
test with classes imported from `aas_timeseries.marks` while every layer
instantiates a class of `aas_timeseries.layers`. -/
theorem text_and_lone_markers_not_black :
    (check_colors [exTextLayer] false).map Layer.color = [some "#a6cee3"] ∧
    (check_colors [exMarkersLayer] false).map Layer.color = [some "#a6cee3"] ∧
    ("#a6cee3" : String) ≠ "#000000" := by
  refine ⟨rfl, rfl, by decide⟩

/-- **C5** (counterexample): on five Markers layers the colors produced by
`auto_assign_colors` differ from those of the same algorithm wrapping
modulo the palette size (`paired5HexColors.length = 5`), refuting "wraps
around modulo the size of the qualitative palette". -/
theorem color_cycle_counterexample :
    auto_assign_colors exFiveMarkers
      ≠ auto_assign_colors_wrap paired5HexColors.length exFiveMarkers := by
  decide

/-- **C5** (amended): the palette index advances in layer-insertion order
but wraps modulo 4, one less than the palette size: `auto_assign_colors`
is the modulus-4 instance of the wrap-parameterized algorithm, and every
assigned color is black or one of the first four palette entries — the
fifth palette color is never used. -/
theorem color_cycle_mod_four (markers : List Layer) :
    auto_assign_colors markers = auto_assign_colors_wrap 4 markers ∧
    ∀ c ∈ auto_assign_colors markers, c = "#000000" ∨ c ∈ paired5HexColors.take 4 :=
  ⟨autoAssignColorsGo_eq_wrap4 markers markers 0,
   fun c hc => autoAssignColorsGo_mem_black_or_take4 markers markers 0 c hc⟩

/-- Witness for `color_cycle_mod_four` at the five-Markers input. -/
theorem color_cycle_mod_four_witness :
    auto_assign_colors exFiveMarkers = auto_assign_colors_wrap 4 exFiveMarkers ∧
    ("#1F78B4" ∈ auto_assign_colors exFiveMarkers ∧
      ("#1F78B4" = "#000000" ∨ "#1F78B4" ∈ paired5HexColors.take 4)) := by
  obtain ⟨h1, h2⟩ := color_cycle_mod_four exFiveMarkers
  exact ⟨h1, by decide, h2 _ (by decide)⟩

/-- **C7.** With `override_style` false, `_check_colors` leaves every
layer whose color was explicitly set entirely unchanged; a layer whose
color is `None` receives the auto-assigned color (as normalized by the
`Color` trait); with `override_style` true every layer receives the
auto-assigned color. -/
theorem check_colors_respects_explicit (layers : List Layer) (b : Bool) (i : Nat)
    (l l' : Layer) (hl : layers[i]? = some l)
    (hl' : (check_colors layers b)[i]? = some l') :
    (check_colors layers b).length = layers.length ∧
    (b = false → ∀ c, l.color = some c → l' = l) ∧
    (l.color = none →
      l'.color = some (lowerAscii ((auto_assign_colors layers).getD i ""))) ∧
    (b = true →
      l'.color = some (lowerAscii ((auto_assign_colors layers).getD i ""))) := by
  have hlen := auto_assign_colors_length layers
  have hilt : i < layers.length := by
    by_contra hni
    rw [List.getElem?_eq_none (Nat.le_of_not_lt hni)] at hl
    exact Option.noConfusion hl
  have hi2 : i < (auto_assign_colors layers).length := by rw [hlen]; exact hilt
  have hc : (auto_assign_colors layers)[i]?
      = some ((auto_assign_colors layers).getD i "") := by
    rw [List.getElem?_eq_getElem hi2, List.getD_eq_getElem _ _ hi2]
  have key := checkColorsGo_getElem? b layers (auto_assign_colors layers) i l _ hl hc
  rw [check_colors] at hl'
  rw [key] at hl'
  have hl2 := Option.some.inj hl'
  refine ⟨checkColorsGo_length b layers _ hlen, ?_, ?_, ?_⟩
  · intro hb c hcol
    rw [← hl2]
    simp [hb, hcol]
  · intro hcol
    rw [← hl2]
    simp [hcol]
  · intro hb
    rw [← hl2]
    simp [hb]

/-- Witness for `check_colors_respects_explicit`: a single Line layer with
an explicitly set color is preserved. -/
theorem check_colors_respects_explicit_witness :
    (check_colors [exColoredLayer] false).length = [exColoredLayer].length ∧
    (false = false → ∀ c, exColoredLayer.color = some c → exColoredLayer = exColoredLayer) ∧
    (exColoredLayer.color = none →
      exColoredLayer.color = some (lowerAscii ((auto_assign_colors [exColoredLayer]).getD 0 ""))) ∧
    (false = true →
      exColoredLayer.color = some (lowerAscii ((auto_assign_colors [exColoredLayer]).getD 0 ""))) :=
  check_colors_respects_explicit [exColoredLayer] false 0 exColoredLayer exColoredLayer
    (by decide) (by decide)

/-- **C9** (counterexample): assigning an RGBA 4-tuple to a layer's color
trait raises a `TraitError` instead of being accepted and normalized. -/
theorem rgba_tuple_rejected :
    color_validate true (ColorValue.rgba 1 0 0 1)
      = .error (.traitError "color must be a string or a tuple of 3 or 4 floats") := rfl

/-- **C9** (amended): the `Color` trait accepts `None` (stored as the
unset sentinel), accepts any string recognized by matplotlib (normalized
to canonical lower-case hex), accepts an RGB 3-tuple with components in
`[0, 1]` (normalized to hex), and raises a `TraitError` on RGBA 4-tuples
and on any other value. -/
theorem color_validate_characterization (ho : Bool) :
    color_validate ho .pyNone = .ok none ∧
    (∀ s h, strToHex? s = some h → color_validate ho (.pyStr s) = .ok (some h)) ∧
    (∀ r g b : Rat, 0 ≤ r → r ≤ 1 → 0 ≤ g → g ≤ 1 → 0 ≤ b → b ≤ 1 →
      color_validate ho (.rgb r g b) = .ok (some (rgbToHex r g b))) ∧
    (∀ r g b a : Rat, ∃ m, color_validate ho (.rgba r g b a) = .error (.traitError m)) ∧
    (∃ m, color_validate ho .otherValue = .error (.traitError m)) := by
  refine ⟨rfl, ?_, ?_, ?_, ⟨_, rfl⟩⟩
  · intro s h hs
    simp [color_validate, hs]
  · intro r g b h1 h2 h3 h4 h5 h6
    rw [color_validate, if_pos ⟨h1, h2, h3, h4, h5, h6⟩]
  · intro r g b a
    exact ⟨_, rfl⟩

/-- Witness for `color_validate_characterization` at concrete inputs. -/
theorem color_validate_characterization_witness :
    color_validate true .pyNone = .ok none ∧
    color_validate true (.pyStr "#A6CEE3") = .ok (some "#a6cee3") ∧
    color_validate true (.rgb 1 0 0) = .ok (some (rgbToHex 1 0 0)) ∧
    (∃ m, color_validate true (.rgba 1 0 0 1) = .error (.traitError m)) := by
  obtain ⟨h1, h2, h3, h4, _⟩ := color_validate_characterization true
  exact ⟨h1, h2 "#A6CEE3" "#a6cee3" (by decide),
    h3 1 0 0 (by norm_num) (by norm_num) (by norm_num) (by norm_num) (by norm_num) (by norm_num),
    h4 1 0 0 1⟩

/-- **C6** (counterexample): a three-element value assigned to `ylim` is
accepted and stored unchanged — the setter never checks the length, so the
claimed "raises if the value does not have exactly two endpoints" fails
for `ylim`. -/
theorem ylim_three_endpoints_accepted :
    set_ylim (.seq [.numVal 1, .numVal 2, .numVal 3])
      = .ok [.numVal 1, .numVal 2, .numVal 3] := rfl

/-- **C6** (amended): the `xlim` setter accepts exactly the two-element
sequences whose endpoints are time instants (or strings parseable as
such), raising otherwise; the `ylim` setter accepts exactly the sequences
with at least two endpoints whose first two are both unit quantities with
mutually convertible units or both plain values — it enforces no length
bound.  All violations raise at assignment time, before any
serialization. -/
theorem limit_setters_characterization (v : PySeqVal) :
    (set_xlim v).toBool = xlimAccepts v ∧ (set_ylim v).toBool = ylimAccepts v := by
  constructor
  · rcases v with _ | xs
    · rfl
    · rcases xs with _ | ⟨a, _ | ⟨b, _ | ⟨c, rest⟩⟩⟩
      · rfl
      · rfl
      · rcases a with t | (_ | t) | q | ⟨q, u⟩ <;>
          rcases b with t' | (_ | t') | q' | ⟨q', u'⟩ <;> rfl
      · rfl
  · rcases v with _ | xs
    · rfl
    · rcases xs with _ | ⟨a, _ | ⟨b, rest⟩⟩
      · rfl
      · rfl
      · cases a <;> cases b <;>
          simp only [set_ylim, ylimAccepts, PyVal.isQuantity, List.getElem?_cons_zero,
            List.getElem?_cons_succ, beq_self_eq_true, if_true] <;>
          first
          | rfl
          | (split <;> simp_all [Except.toBool, Except.isOk])

theorem firstRequiredYUnit_eq_none (ls : List Layer)
    (h : ls.any (fun l => !l.requiredY.isEmpty) = false) :
    firstRequiredYUnit ls = none := by
  induction ls with
  | nil => rfl
  | cons l rest ih =>
    simp only [List.any_cons, Bool.or_eq_false_iff] at h
    obtain ⟨h1, h2⟩ := h
    have hreq : l.requiredY = [] := by
      cases hr : l.requiredY
      · rfl
      · rw [hr] at h1
        simp at h1
    simp only [firstRequiredYUnit, hreq]
    exact ih h2

/-- **C2** (counterexample): the claimed resolution rule fails twice on
the code.  On a figure whose one markers layer is bound to a
dimensionless column (`yunit='auto'`, `ylim` unset) the claim's rule
resolves to dimensionless, but the code raises `AttributeError` in the
scan — `Data` defines no `unit` method; and after assigning
Jansky-quantity y-limits through the `ylim` setter the very same figure
resolves to Jansky, so the y-limits do influence the result while the
claim's rule still answers dimensionless. -/
theorem yunit_resolution_counterexample :
    figure_set_ylim exC2Fig exC2Lims = .ok exC2Fig2 ∧
    resolved_yunit exC2Fig = .error (.attributeError "unit") ∧
    resolved_yunit_claimed exC2Fig = PhysUnit.one ∧
    resolved_yunit exC2Fig2 = .ok PhysUnit.jy ∧
    resolved_yunit_claimed exC2Fig2 = PhysUnit.one := by
  refine ⟨rfl, rfl, rfl, rfl, rfl⟩

/-- **C2** (amended): serialization resolves the effective y-unit as the
figure's explicit `yunit` if set; otherwise, if `ylim` is set with a
`Quantity` first endpoint, that endpoint's unit; otherwise, as soon as
any layer of the base figure or any view's local layers reports required
y-data, resolution raises `AttributeError` (the scan calls
`data.unit(colname)`, which `Data` does not define); otherwise
dimensionless.  Whenever `ylim` is unset or plain and no layer reports
required y-data, the claim's own rule agrees with the code. -/
theorem yunit_resolution_amended (F : Figure) :
    resolved_yunit F = resolved_yunit_amended F ∧
    (ylimHeadQuantity F = false → scanHasRequiredY F = false →
      resolved_yunit F = .ok (resolved_yunit_claimed F)) := by
  constructor
  · simp only [resolved_yunit, resolved_yunit_amended, guess_yunit]
  · intro hq hscan
    have hfigN : firstRequiredYUnit (F.figLayers.map (·.1)) = none := by
      apply firstRequiredYUnit_eq_none
      rw [scanHasRequiredY, Bool.or_eq_false_iff] at hscan
      exact hscan.1
    have hviewsN : (F.views.map
        (fun v => firstRequiredYUnit (v.viewLayers.map (·.1)))).findSome? id = none := by
      rw [List.findSome?_eq_none_iff]
      intro o ho
      obtain ⟨v, hv, hvo⟩ := List.mem_map.mp ho
      rw [scanHasRequiredY, Bool.or_eq_false_iff] at hscan
      have := List.any_eq_false.mp hscan.2 v hv
      rw [← hvo]
      exact firstRequiredYUnit_eq_none _ (by simpa using this)
    cases hy : F.yunit with
    | some u =>
      simp only [resolved_yunit, resolved_yunit_claimed, hy]
    | none =>
      simp only [resolved_yunit, resolved_yunit_claimed, guess_yunit, hy, hfigN, hviewsN]
      rw [ylimHeadQuantity] at hq
      rcases hl : F.ylim with _ | ⟨_ | ⟨hd, tl⟩⟩
      · simp [hscan]
      · simp [hscan]
      · rw [hl] at hq
        cases hd <;> simp_all

/-- Witness for `yunit_resolution_amended` at the empty figure (whose
`ylim` is unset and which has no data-bound layer). -/
theorem yunit_resolution_amended_witness :
    (resolved_yunit figure0 = resolved_yunit_amended figure0) ∧
    (ylimHeadQuantity figure0 = false ∧ scanHasRequiredY figure0 = false ∧
      resolved_yunit figure0 = .ok (resolved_yunit_claimed figure0)) := by
  obtain ⟨h1, h2⟩ := yunit_resolution_amended figure0
  exact ⟨h1, by decide, by decide, h2 (by decide) (by decide)⟩

theorem containsNat_append (xs ys : List Nat) (y : Nat) :
    containsNat (xs ++ ys) y = (containsNat xs y || containsNat ys y) := by
  induction xs with
  | nil => rfl
  | cons x xs ih => simp [containsNat, ih, Bool.or_assoc]

theorem regContains_append (a b : List (Layer × Nat)) (L : Layer) :
    regContains (a ++ b) L = (regContains a L || regContains b L) := by
  simp [regContains, List.any_append]

theorem regContains_eq_containsNat (reg : List (Layer × Nat)) (L : Layer) :
    regContains reg L = containsNat (reg.map (·.1.oid)) L.oid := by
  induction reg with
  | nil => rfl
  | cons p rest ih =>
    simp only [regContains, List.any_cons, List.map_cons, containsNat] at *
    rw [ih]

theorem filter_eq_self_of_not_contains (reg : List (Layer × Nat)) (o : Nat)
    (h : containsNat (reg.map (·.1.oid)) o = false) :
    reg.filter (fun p => !(p.1.oid == o)) = reg := by
  induction reg with
  | nil => rfl
  | cons p rest ih =>
    simp only [List.map_cons, containsNat, Bool.or_eq_false_iff] at h
    obtain ⟨h1, h2⟩ := h
    simp [List.filter_cons, h1, ih h2]

theorem popEntry_eq_filter (reg : List (Layer × Nat)) (o : Nat)
    (h : allDistinct (reg.map (·.1.oid)) = true) :
    popEntry reg o = reg.filter (fun p => !(p.1.oid == o)) := by
  induction reg with
  | nil => rfl
  | cons p rest ih =>
    simp only [List.map_cons, allDistinct, Bool.and_eq_true, Bool.not_eq_true'] at h
    obtain ⟨hnc, hd⟩ := h
    by_cases hp : (p.1.oid == o) = true
    · have hpo : p.1.oid = o := by simpa using hp
      simp only [popEntry, hp, if_true, List.filter_cons, Bool.not_true, if_false]
      exact (filter_eq_self_of_not_contains rest o (hpo ▸ hnc)).symm
    · have hp' : (p.1.oid == o) = false := by simpa using hp
      simp only [popEntry, hp', Bool.false_eq_true, if_false, List.filter_cons,
        Bool.not_false, if_true]
      rw [ih hd]

theorem allDistinct_append (xs ys : List Nat) (h : allDistinct (xs ++ ys) = true) :
    allDistinct xs = true ∧ allDistinct ys = true ∧
      ∀ x, containsNat xs x = true → containsNat ys x = false := by
  induction xs with
  | nil =>
    refine ⟨rfl, h, fun x hx => ?_⟩
    simp [containsNat] at hx
  | cons a xs ih =>
    simp only [List.cons_append, allDistinct, Bool.and_eq_true, Bool.not_eq_true'] at h
    obtain ⟨hna, hrest⟩ := h
    obtain ⟨h1, h2, h3⟩ := ih hrest
    have hna' : containsNat (xs ++ ys) a = false := hna
    rw [containsNat_append, Bool.or_eq_false_iff] at hna'
    obtain ⟨hna1, hna2⟩ := hna'
    refine ⟨?_, h2, ?_⟩
    · simp only [allDistinct, Bool.and_eq_true, Bool.not_eq_true']
      exact ⟨hna1, h1⟩
    · intro x hx
      simp only [containsNat, Bool.or_eq_true] at hx
      rcases hx with hax | hx
      · have hax' : a = x := by simpa using hax
        exact hax' ▸ hna2
      · exact h3 x hx

theorem view_remove_of_contains (v : ViewState) (L : Layer)
    (hv : allDistinct ((viewLayerList v).map (·.1.oid)) = true)
    (hc : regContains (viewLayerList v) L = true) :
    view_remove v L = .ok
      { inheritedLayers := v.inheritedLayers.filter (fun p => !(p.1.oid == L.oid)),
        viewLayers := v.viewLayers.filter (fun p => !(p.1.oid == L.oid)) } := by
  rw [viewLayerList, List.map_append] at hv
  obtain ⟨hd1, hd2, hdisj⟩ := allDistinct_append _ _ hv
  rw [viewLayerList, regContains_append, Bool.or_eq_true] at hc
  by_cases hinh : regContains v.inheritedLayers L = true
  · rw [view_remove, if_pos hinh]
    rw [regContains_eq_containsNat] at hinh
    have hloc : containsNat (v.viewLayers.map (·.1.oid)) L.oid = false := hdisj _ hinh
    rw [popEntry_eq_filter _ _ hd1,
      filter_eq_self_of_not_contains v.viewLayers L.oid hloc]
  · have hinh' : regContains v.inheritedLayers L = false := by simpa using hinh
    have hloc : regContains v.viewLayers L = true := by
      rcases hc with h | h
      · exact absurd h hinh
      · exact h
    rw [view_remove, if_neg (by simp [hinh']), if_pos hloc]
    rw [regContains_eq_containsNat] at hinh'
    rw [popEntry_eq_filter _ _ hd2,
      filter_eq_self_of_not_contains v.inheritedLayers L.oid hinh']

theorem view_remove_of_not_contains (v : ViewState) (L : Layer)
    (hc : regContains (viewLayerList v) L = false) :
    view_remove v L
      = .error (.valueError ("Layer '" ++ L.label ++ "' is not in view")) := by
  rw [viewLayerList, regContains_append, Bool.or_eq_false_iff] at hc
  obtain ⟨h1, h2⟩ := hc
  rw [view_remove, if_neg (by simp [h1]), if_neg (by simp [h2])]

theorem view_cascade_filter (v : ViewState) (L : Layer)
    (hv : allDistinct ((viewLayerList v).map (·.1.oid)) = true) :
    (if regContains (viewLayerList v) L then
       match view_remove v L with
       | .ok v' => v'
       | .error _ => v
     else v)
    = { inheritedLayers := v.inheritedLayers.filter (fun p => !(p.1.oid == L.oid)),
        viewLayers := v.viewLayers.filter (fun p => !(p.1.oid == L.oid)) } := by
  by_cases hc : regContains (viewLayerList v) L = true
  · rw [if_pos hc, view_remove_of_contains v L hv hc]
  · have hcf : regContains (viewLayerList v) L = false := by simpa using hc
    rw [if_neg (by simp [hcf])]
    rw [viewLayerList, regContains_append, Bool.or_eq_false_iff] at hcf
    obtain ⟨h1, h2⟩ := hcf
    rw [regContains_eq_containsNat] at h1 h2
    rw [filter_eq_self_of_not_contains _ _ h1, filter_eq_self_of_not_contains _ _ h2]

/-- **C3.** Removal ownership rule.  If a layer is in the figure's own
registry, `InteractiveTimeSeriesFigure.remove` pops it from the registry
and cascades removal from every view's inherited and view-local sets,
leaving the view count intact; if it is not, the call raises naming the
layer's label and the figure.  `View.remove` on the view at index `i`
removes the layer from that view only — the figure registry and all other
views are untouched — and raises naming the label and the view when the
layer is in neither of the view's sets. -/
theorem remove_ownership_rule (F : Figure) (L : Layer) (hWF : removalWF F = true) :
    (regContains F.figLayers L = true →
      ∃ F' : Figure, figure_remove F L = .ok F' ∧
        F'.figLayers = F.figLayers.filter (fun p => !(p.1.oid == L.oid)) ∧
        F'.views.length = F.views.length ∧
        (∀ (i : Nat) (v v' : ViewState), F.views[i]? = some v → F'.views[i]? = some v' →
          v'.inheritedLayers = v.inheritedLayers.filter (fun p => !(p.1.oid == L.oid)) ∧
          v'.viewLayers = v.viewLayers.filter (fun p => !(p.1.oid == L.oid)))) ∧
    (regContains F.figLayers L = false →
      figure_remove F L
        = .error (.valueError ("Layer '" ++ L.label ++ "' is not in figure"))) ∧
    (∀ i v, F.views[i]? = some v →
      (regContains (viewLayerList v) L = true →
        ∃ F' : Figure, figure_view_remove F i L = .ok F' ∧
          F'.figLayers = F.figLayers ∧
          (∀ j, j ≠ i → F'.views[j]? = F.views[j]?) ∧
          (∀ v' : ViewState, F'.views[i]? = some v' →
            v'.inheritedLayers = v.inheritedLayers.filter (fun p => !(p.1.oid == L.oid)) ∧
            v'.viewLayers = v.viewLayers.filter (fun p => !(p.1.oid == L.oid)))) ∧
      (regContains (viewLayerList v) L = false →
        figure_view_remove F i L
          = .error (.valueError ("Layer '" ++ L.label ++ "' is not in view")))) := by
  rw [removalWF, Bool.and_eq_true] at hWF
  obtain ⟨hWFfig, hWFviews⟩ := hWF
  have hVdist : ∀ v ∈ F.views, allDistinct ((viewLayerList v).map (·.1.oid)) = true := by
    intro v hv
    have := List.all_eq_true.mp hWFviews v hv
    simpa using this
  refine ⟨?_, ?_, ?_⟩
  · intro hmem
    refine ⟨{ F with
        figLayers := popEntry F.figLayers L.oid,
        views := F.views.map (fun v =>
          if regContains (viewLayerList v) L then
            match view_remove v L with
            | .ok v' => v'
            | .error _ => v
          else v) }, ?_, ?_, ?_, ?_⟩
    · rw [figure_remove, if_pos hmem]
    · exact popEntry_eq_filter _ _ hWFfig
    · simp
    · intro i v v' hv hv'
      simp only [List.getElem?_map, hv, Option.map_some'] at hv'
      have hvmem : v ∈ F.views := List.getElem?_mem hv
      rw [view_cascade_filter v L (hVdist v hvmem)] at hv'
      have hv2 := Option.some.inj hv'
      rw [← hv2]
      exact ⟨rfl, rfl⟩
  · intro hmem
    rw [figure_remove, if_neg (by simp [hmem])]
  · intro i v hv
    have hvmem : v ∈ F.views := List.getElem?_mem hv
    have hlt : i < F.views.length := (List.getElem?_eq_some.mp hv).1
    constructor
    · intro hc
      refine ⟨{ F with views := F.views.set i (viewFiltered v L) }, ?_, rfl, ?_, ?_⟩
      · simp only [figure_view_remove, hv, view_remove_of_contains v L (hVdist v hvmem) hc,
          Except.map]
        rfl
      · intro j hj
        exact List.getElem?_set_ne (Ne.symm hj)
      · intro v' hv'
        rw [List.getElem?_set_eq_of_lt _ hlt] at hv'
        have hv2 := Option.some.inj hv'
        rw [← hv2]
        exact ⟨rfl, rfl⟩
    · intro hc
      simp only [figure_view_remove, hv, view_remove_of_not_contains v L hc, Except.map]

/-- Witness for `remove_ownership_rule`: removing the markers layer from
the two-layer, one-view session figure. -/
theorem remove_ownership_rule_witness :
    ∃ F' : Figure, figure_remove exFigV1 exLayerA = .ok F' ∧
      F'.figLayers = exFigV1.figLayers.filter (fun p => !(p.1.oid == exLayerA.oid)) ∧
      F'.views.length = exFigV1.views.length := by
  obtain ⟨hA, _, _⟩ := remove_ownership_rule exFigV1 exLayerA (by decide)
  obtain ⟨F', h1, h2, h3, _⟩ := hA (by decide)
  exact ⟨F', h1, h2, h3⟩

theorem containsNat_eq_false_of_lt (xs : List Nat) (n : Nat) (h : ∀ x ∈ xs, x < n) :
    containsNat xs n = false := by
  induction xs with
  | nil => rfl
  | cons a xs ih =>
    simp only [containsNat, Bool.or_eq_false_iff]
    refine ⟨?_, ih (fun x hx => h x (List.mem_cons_of_mem a hx))⟩
    have ha := h a (List.mem_cons_self a xs)
    simp [Nat.ne_of_lt ha]

theorem add_view_ok (F : Figure) (mode : AddViewMode) (F' : Figure) (i : Nat)
    (h : add_view F mode = .ok (F', i)) :
    i = F.views.length ∧
    ∃ nv : ViewState, F' = { F with views := F.views ++ [nv] } ∧
      nv.viewLayers = [] ∧ ∀ p ∈ nv.inheritedLayers, p ∈ F.figLayers := by
  cases mode with
  | emptyView =>
    simp only [add_view, Except.ok.injEq, Prod.mk.injEq] at h
    obtain ⟨hF, hi⟩ := h
    exact ⟨hi.symm, _, hF.symm, rfl, by simp⟩
  | default =>
    simp only [add_view, Except.ok.injEq, Prod.mk.injEq] at h
    obtain ⟨hF, hi⟩ := h
    exact ⟨hi.symm, _, hF.symm, rfl, fun p hp => hp⟩
  | includeLayers xs =>
    rw [add_view] at h
    split at h
    · exact absurd h (by simp)
    · simp only [Except.ok.injEq, Prod.mk.injEq] at h
      obtain ⟨hF, hi⟩ := h
      refine ⟨hi.symm, _, hF.symm, rfl, ?_⟩
      intro p hp
      simp only [List.mem_filterMap] at hp
      obtain ⟨L0, _, hfind⟩ := hp
      exact List.mem_of_find?_eq_some hfind
  | excludeLayers xs =>
    rw [add_view] at h
    split at h
    · exact absurd h (by simp)
    · simp only [Except.ok.injEq, Prod.mk.injEq] at h
      obtain ⟨hF, hi⟩ := h
      refine ⟨hi.symm, _, hF.symm, rfl, ?_⟩
      intro p hp
      exact List.mem_of_mem_filter hp

/-- **C4.** Snapshot-at-creation invariant: for a view created by any
`add_view` call (default inheritance, include, exclude, or empty), a layer
added to the figure afterwards does not appear in the view's concatenated
layer list. -/
theorem view_snapshot_invariant (F : Figure) (mode : AddViewMode) (F' : Figure) (i : Nat)
    (hWF : oidsBounded F = true) (hAdd : add_view F mode = .ok (F', i))
    (spec : LayerSpec) (v : ViewState)
    (hv : ((figure_add_layer F' spec).1.views)[i]? = some v) :
    regContains (viewLayerList v) (figure_add_layer F' spec).2 = false := by
  obtain ⟨hi, nv, hF', hnvloc, hnvinh⟩ := add_view_ok F mode F' i hAdd
  subst hF'
  subst hi
  have hv' : (F.views ++ [nv])[F.views.length]? = some v := hv
  rw [List.getElem?_append_right (Nat.le_refl _), Nat.sub_self] at hv'
  simp only [List.getElem?_cons_zero, Option.some.injEq] at hv'
  subst hv'
  rw [viewLayerList, hnvloc, List.append_nil, regContains_eq_containsNat]
  apply containsNat_eq_false_of_lt
  intro x hx
  simp only [List.mem_map] at hx
  obtain ⟨p, hp, hpx⟩ := hx
  have hmem : p.1 ∈ allLayers F := by
    rw [allLayers]
    exact List.mem_append_left _ (List.mem_map_of_mem _ (hnvinh p hp))
  have := List.all_eq_true.mp hWF _ hmem
  simp only [decide_eq_true_eq] at this
  show x < F.nextOid
  exact hpx ▸ this

/-- Witness for `view_snapshot_invariant`: the default view of the
two-layer session does not pick up a layer added afterwards. -/
theorem view_snapshot_invariant_witness :
    regContains (viewLayerList exV1) (figure_add_layer exFigV1 exSpecB).2 = false :=
  view_snapshot_invariant exFigAB .default exFigV1 0 (by decide) rfl exSpecB exV1 (by decide)


theorem view_set_visible_inherited (F : Figure) (i : Nat) (v : ViewState) (L : Layer)
    (b : Bool) (q : Layer × Nat)
    (hvi : F.views[i]? = some v)
    (hlocal : regFind? v.viewLayers L = none)
    (hinh : regFind? v.inheritedLayers L = some q) :
    view_set_visible F i L b = .ok { F with cells := F.cells.set q.2 b } := by
  simp only [view_set_visible, hvi, hlocal, hinh]

theorem viewVisibility_eq (F : Figure) (i : Nat) (v : ViewState) (L : Layer)
    (q : Layer × Nat)
    (hvi : F.views[i]? = some v)
    (hfind : regFind? (viewLayerList v) L = some q) :
    viewVisibility F i L = some (cellValue F q.2) := by
  simp only [viewVisibility, hvi, Option.some_bind, hfind, Option.map_some']

/-- **C10.** Visibility records are aliased, not copied: with a layer
registered in the base figure and two views created with default
inheritance, toggling the layer's visibility through the first view
mutates the single shared settings cell, so the serializer reads the new
value through the second view and through the base figure alike. -/
theorem visibility_settings_aliased (F : Figure) (L : Layer) (b : Bool)
    (hmem : regContains F.figLayers L = true)
    (hcells : cellsBounded F = true)
    (F1 : Figure) (i : Nat) (F2 : Figure) (j : Nat)
    (h1 : add_view F .default = .ok (F1, i))
    (h2 : add_view F1 .default = .ok (F2, j)) :
    ∃ F3 : Figure, view_set_visible F2 i L b = .ok F3 ∧
      viewVisibility F3 i L = some b ∧
      viewVisibility F3 j L = some b ∧
      figureVisibility F3 L = some b := by
  simp only [add_view, Except.ok.injEq, Prod.mk.injEq] at h1
  obtain ⟨hF1, hi⟩ := h1
  subst hF1
  subst hi
  simp only [add_view, Except.ok.injEq, Prod.mk.injEq] at h2
  obtain ⟨hF2, hj⟩ := h2
  subst hF2
  subst hj
  rw [regContains] at hmem
  obtain ⟨p, hpmem, hp⟩ := List.any_eq_true.mp hmem
  have hqex : ∃ q, F.figLayers.find? (fun p => p.1.oid == L.oid) = some q :=
    Option.isSome_iff_exists.mp (List.find?_isSome.mpr ⟨p, hpmem, hp⟩)
  obtain ⟨q, hq⟩ := hqex
  have hqmem : q ∈ F.figLayers := List.mem_of_find?_eq_some hq
  have hqc : q.2 < F.cells.length := by
    rw [cellsBounded] at hcells
    have := List.all_eq_true.mp hcells q (List.mem_append_left _ hqmem)
    simpa using this
  have hvi : ((F.views ++ [(⟨F.figLayers, []⟩ : ViewState)])
      ++ [(⟨F.figLayers, []⟩ : ViewState)])[F.views.length]?
      = some (⟨F.figLayers, []⟩ : ViewState) := by
    rw [List.getElem?_append_left (by simp), List.getElem?_append_right (Nat.le_refl _),
      Nat.sub_self]
    rfl
  have hvj : ((F.views ++ [(⟨F.figLayers, []⟩ : ViewState)])
      ++ [(⟨F.figLayers, []⟩ : ViewState)])[(F.views
        ++ [(⟨F.figLayers, []⟩ : ViewState)]).length]?
      = some (⟨F.figLayers, []⟩ : ViewState) := by
    rw [List.getElem?_append_right (Nat.le_refl _), Nat.sub_self]
    rfl
  have hfindInh : regFind?
      (viewLayerList (⟨F.figLayers, []⟩ : ViewState)) L = some q := by
    rw [viewLayerList]
    show regFind? (F.figLayers ++ []) L = some q
    rw [List.append_nil, regFind?, hq]
  have hfindLoc : regFind? (ViewState.viewLayers (⟨F.figLayers, []⟩ : ViewState)) L = none := rfl
  have hfindInh' : regFind?
      (ViewState.inheritedLayers (⟨F.figLayers, []⟩ : ViewState)) L = some q := by
    show regFind? F.figLayers L = some q
    rw [regFind?, hq]
  refine ⟨_, view_set_visible_inherited _ (F.views.length) (⟨F.figLayers, []⟩ : ViewState)
    L b q hvi hfindLoc hfindInh', ?_, ?_, ?_⟩
  · rw [viewVisibility_eq _ (F.views.length) (⟨F.figLayers, []⟩ : ViewState) L q hvi hfindInh]
    congr 1
    show ((F.cells.set q.2 b).getD q.2 true) = b
    rw [List.getD_eq_getElem?_getD, List.getElem?_set_eq_of_lt _ hqc]
    rfl
  · rw [viewVisibility_eq _ ((F.views ++ [(⟨F.figLayers, []⟩ : ViewState)]).length)
      (⟨F.figLayers, []⟩ : ViewState) L q hvj hfindInh]
    congr 1
    show ((F.cells.set q.2 b).getD q.2 true) = b
    rw [List.getD_eq_getElem?_getD, List.getElem?_set_eq_of_lt _ hqc]
    rfl
  · rw [figureVisibility]
    show (regFind? F.figLayers L).map _ = some b
    rw [regFind?, hq, Option.map_some']
    congr 1
    show ((F.cells.set q.2 b).getD q.2 true) = b
    rw [List.getD_eq_getElem?_getD, List.getElem?_set_eq_of_lt _ hqc]
    rfl

/-- Witness for `visibility_settings_aliased`: hiding the markers layer
through the first of two default views of the session figure. -/
theorem visibility_settings_aliased_witness :
    ∃ F3 : Figure, view_set_visible exFigV2 0 exLayerA false = .ok F3 ∧
      viewVisibility F3 0 exLayerA = some false ∧
      viewVisibility F3 1 exLayerA = some false ∧
      figureVisibility F3 exLayerA = some false :=
  visibility_settings_aliased exFigAB exLayerA false (by decide) (by decide)
    exFigV1 0 exFigV2 1 rfl rfl


theorem containsNat_iff_mem (xs : List Nat) (y : Nat) :
    containsNat xs y = true ↔ y ∈ xs := by
  induction xs with
  | nil => simp [containsNat]
  | cons a xs ih =>
    simp only [containsNat, Bool.or_eq_true, beq_iff_eq, ih, List.mem_cons]
    tauto

theorem allDistinct_append_singleton (xs : List Nat) (d : Nat)
    (h1 : allDistinct xs = true) (h2 : containsNat xs d = false) :
    allDistinct (xs ++ [d]) = true := by
  induction xs with
  | nil => rfl
  | cons a xs ih =>
    simp only [containsNat, Bool.or_eq_false_iff] at h2
    obtain ⟨h2a, h2b⟩ := h2
    simp only [List.cons_append, allDistinct, Bool.and_eq_true, Bool.not_eq_true'] at h1 ⊢
    obtain ⟨h1a, h1b⟩ := h1
    refine ⟨?_, ih h1b h2b⟩
    show containsNat (xs ++ [d]) a = false
    rw [containsNat_append]
    simp only [Bool.or_eq_false_iff]
    refine ⟨h1a, ?_⟩
    simp only [containsNat, Bool.or_eq_false_iff]
    refine ⟨?_, trivial⟩
    simp only [beq_eq_false_iff_ne] at h2a ⊢
    exact fun hda => h2a hda.symm

theorem registerData_inv (ids : List Nat) (dOpt : Option Nat)
    (h1 : allDistinct ids = true) :
    allDistinct (registerData ids dOpt) = true ∧
    ∀ d, d ∈ registerData ids dOpt ↔ (d ∈ ids ∨ dOpt = some d) := by
  cases dOpt with
  | none =>
    refine ⟨h1, fun d => ?_⟩
    simp [registerData]
  | some d0 =>
    rw [registerData]
    by_cases hc : containsNat ids d0 = true
    · rw [if_pos hc]
      have hd0 : d0 ∈ ids := (containsNat_iff_mem ids d0).mp hc
      refine ⟨h1, fun d => ?_⟩
      constructor
      · exact Or.inl
      · rintro (h | h)
        · exact h
        · obtain rfl : d0 = d := Option.some.inj h
          exact hd0
    · have hcf : containsNat ids d0 = false := by simpa using hc
      rw [if_neg (by simp [hcf])]
      refine ⟨allDistinct_append_singleton ids d0 h1 hcf, fun d => ?_⟩
      simp only [List.mem_append, List.mem_singleton, Option.some.injEq]
      tauto

theorem mem_referencedTables (F : Figure) (d : Nat) :
    d ∈ referencedTables F ↔ ∃ l ∈ allLayers F, l.dataId = some d := by
  rw [referencedTables]
  exact List.mem_filterMap

theorem mem_allLayers_figure_add (F : Figure) (spec : LayerSpec) (l : Layer) :
    l ∈ allLayers (figure_add_layer F spec).1 ↔
      l ∈ allLayers F ∨ l = buildLayer spec F.nextOid := by
  simp only [allLayers, figure_add_layer, List.map_append, List.map_cons, List.map_nil,
    List.mem_append, List.mem_cons, List.not_mem_nil, or_false]
  tauto

theorem mem_flatMapViews_set (f : ViewState → List Layer) :
    ∀ (views : List ViewState) (i : Nat) (v v' : ViewState) (x e : Layer),
      views[i]? = some v →
      (∀ y, y ∈ f v' ↔ y ∈ f v ∨ y = e) →
      (x ∈ (views.set i v').flatMap f ↔ x ∈ views.flatMap f ∨ x = e) := by
  intro views
  induction views with
  | nil =>
    intro i v v' x e hv _
    simp at hv
  | cons w ws ih =>
    intro i v v' x e hv hext
    cases i with
    | zero =>
      simp only [List.getElem?_cons_zero, Option.some.injEq] at hv
      subst hv
      simp only [List.set_cons_zero, List.flatMap_cons, List.mem_append, hext x]
      tauto
    | succ n =>
      simp only [List.getElem?_cons_succ] at hv
      simp only [List.set_cons_succ, List.flatMap_cons, List.mem_append,
        ih n v v' x e hv hext]
      tauto

theorem view_add_layer_eq (F : Figure) (i : Nat) (spec : LayerSpec) (v : ViewState)
    (hv : F.views[i]? = some v) (F' : Figure) (L : Layer)
    (heq : view_add_layer F i spec = (F', L)) :
    F'.dataIds = registerData F.dataIds spec.dataId ∧
    (∀ l, l ∈ allLayers F' ↔ l ∈ allLayers F ∨ l = buildLayer spec F.nextOid) := by
  simp only [view_add_layer, hv, Prod.mk.injEq] at heq
  obtain ⟨hF', hL⟩ := heq
  subst hF'
  refine ⟨rfl, fun l => ?_⟩
  simp only [allLayers, List.mem_append]
  have hext : ∀ y, y ∈ (viewLayerList ({ v with
      viewLayers := v.viewLayers ++ [(buildLayer spec F.nextOid, F.cells.length)] })).map (·.1)
      ↔ y ∈ (viewLayerList v).map (·.1) ∨ y = buildLayer spec F.nextOid := by
    intro y
    simp only [viewLayerList, List.map_append, List.mem_append, List.map_cons, List.map_nil,
      List.mem_cons, List.not_mem_nil, or_false]
    tauto
  rw [mem_flatMapViews_set _ F.views i v _ l (buildLayer spec F.nextOid) hv hext]
  tauto

theorem mem_allLayers_add_view (F : Figure) (mode : AddViewMode) (F' : Figure) (i : Nat)
    (h : add_view F mode = .ok (F', i)) (l : Layer) :
    l ∈ allLayers F' ↔ l ∈ allLayers F := by
  obtain ⟨_, nv, hF', hloc, hinh⟩ := add_view_ok F mode F' i h
  subst hF'
  simp only [allLayers, List.mem_append, List.flatMap_append, List.flatMap_cons,
    List.flatMap_nil, List.append_nil]
  constructor
  · rintro (h | h | h)
    · exact Or.inl h
    · exact Or.inr h
    · rw [viewLayerList, hloc, List.append_nil] at h
      obtain ⟨p, hp, hpl⟩ := List.mem_map.mp h
      exact Or.inl (hpl ▸ List.mem_map_of_mem _ (hinh p hp))
  · rintro (h | h)
    · exact Or.inl h
    · exact Or.inr (Or.inl h)

theorem apply_op_inv (F : Figure) (op : FigOp)
    (h : allDistinct F.dataIds = true ∧ ∀ d, d ∈ F.dataIds ↔ d ∈ referencedTables F) :
    allDistinct (apply_op F op).dataIds = true ∧
      ∀ d, d ∈ (apply_op F op).dataIds ↔ d ∈ referencedTables (apply_op F op) := by
  obtain ⟨hdist, hmem⟩ := h
  cases op with
  | figAdd spec =>
    obtain ⟨hd', hm'⟩ := registerData_inv F.dataIds spec.dataId hdist
    refine ⟨hd', fun d => ?_⟩
    show d ∈ registerData F.dataIds spec.dataId ↔ _
    rw [hm' d, mem_referencedTables]
    constructor
    · rintro (hin | heq)
      · obtain ⟨l, hl, hld⟩ := (mem_referencedTables F d).mp ((hmem d).mp hin)
        exact ⟨l, (mem_allLayers_figure_add F spec l).mpr (Or.inl hl), hld⟩
      · refine ⟨buildLayer spec F.nextOid,
          (mem_allLayers_figure_add F spec _).mpr (Or.inr rfl), ?_⟩
        simpa [buildLayer] using heq
    · rintro ⟨l, hl, hld⟩
      rcases (mem_allLayers_figure_add F spec l).mp hl with hin | hnew
      · exact Or.inl ((hmem d).mpr ((mem_referencedTables F d).mpr ⟨l, hin, hld⟩))
      · right
        rw [hnew] at hld
        simpa [buildLayer] using hld
  | viewAdd i spec =>
    cases hv : F.views[i]? with
    | none =>
      simp only [apply_op, hv]
      exact ⟨hdist, hmem⟩
    | some v =>
      simp only [apply_op, hv]
      rcases hva : view_add_layer F i spec with ⟨F', L⟩
      obtain ⟨hids, hall⟩ := view_add_layer_eq F i spec v hv F' L hva
      obtain ⟨hd', hm'⟩ := registerData_inv F.dataIds spec.dataId hdist
      refine ⟨?_, fun d => ?_⟩
      · show allDistinct F'.dataIds = true
        rw [hids]
        exact hd'
      · show d ∈ F'.dataIds ↔ d ∈ referencedTables F'
        rw [hids, hm' d, mem_referencedTables]
        constructor
        · rintro (hin | heq)
          · obtain ⟨l, hl, hld⟩ := (mem_referencedTables F d).mp ((hmem d).mp hin)
            exact ⟨l, (hall l).mpr (Or.inl hl), hld⟩
          · refine ⟨buildLayer spec F.nextOid, (hall _).mpr (Or.inr rfl), ?_⟩
            simpa [buildLayer] using heq
        · rintro ⟨l, hl, hld⟩
          rcases (hall l).mp hl with hin | hnew
          · exact Or.inl ((hmem d).mpr ((mem_referencedTables F d).mpr ⟨l, hin, hld⟩))
          · right
            rw [hnew] at hld
            simpa [buildLayer] using hld
  | addView mode =>
    cases hav : add_view F mode with
    | error e =>
      simp only [apply_op, hav]
      exact ⟨hdist, hmem⟩
    | ok pr =>
      obtain ⟨F', i⟩ := pr
      simp only [apply_op, hav]
      obtain ⟨_, nv, hF', _, _⟩ := add_view_ok F mode F' i hav
      have hids : F'.dataIds = F.dataIds := by rw [hF']
      refine ⟨hids ▸ hdist, fun d => ?_⟩
      rw [hids, mem_referencedTables]
      constructor
      · intro hin
        obtain ⟨l, hl, hld⟩ := (mem_referencedTables F d).mp ((hmem d).mp hin)
        exact ⟨l, (mem_allLayers_add_view F mode F' i hav l).mpr hl, hld⟩
      · rintro ⟨l, hl, hld⟩
        exact (hmem d).mpr ((mem_referencedTables F d).mpr
          ⟨l, (mem_allLayers_add_view F mode F' i hav l).mp hl, hld⟩)

theorem saveCsvGo_all_ok (F : Figure) (ds : List Nat)
    (h : ∀ d ∈ ds, requiresConversion F d = false) :
    saveCsvGo F ds = (ds.map (fun d => "data_" ++ toString d ++ ".csv"), none) := by
  induction ds with
  | nil => rfl
  | cons d rest ih =>
    have hd := h d (List.mem_cons_self d rest)
    have hrest := ih (fun e he => h e (List.mem_cons_of_mem d he))
    simp only [saveCsvGo, hd, Bool.false_eq_true, if_false, hrest, List.map_cons]

theorem saveCsvGo_error (F : Figure) (ds : List Nat) (d : Nat)
    (hd : d ∈ ds) (h : requiresConversion F d = true) :
    (saveCsvGo F ds).2.isSome = true := by
  induction ds with
  | nil => simp at hd
  | cons a rest ih =>
    rcases List.mem_cons.mp hd with rfl | hmem
    · simp [saveCsvGo, h]
    · by_cases ha : requiresConversion F a = true
      · simp [saveCsvGo, ha]
      · have haf : requiresConversion F a = false := by simpa using ha
        simp only [saveCsvGo, haf, Bool.false_eq_true, if_false]
        exact ih hmem

/-- **C8** (counterexample): the session figure references table 10
through two data-bound layers, so the claim demands exactly one CSV side
file for it — but the export loop reaches `data.column_to_values` for the
required value columns, a method `Data` (data.py) does not define, and
raises `AttributeError` before any `table.write`: zero CSV files are
produced. -/
theorem csv_export_counterexample :
    containsNat (referencedTables exFigAB) 10 = true ∧
    exFigAB.dataIds = [10] ∧
    save_csv_files exFigAB = ([], some (.attributeError "column_to_values")) := by
  refine ⟨by decide, by decide, rfl⟩

/-- **C8** (amended): `Data` wrappers are created lazily and de-duplicated
by table identity — after any session of `add_*` and `add_view` calls the
`_data` registry holds exactly the distinct identities of the tables
referenced by some layer of the figure or of one of its views — and with
`embed_data=False` the export loop visits one registry entry per wrapper:
when no entry's export table needs a required value column it writes
exactly one CSV per wrapper, but as soon as some entry does (as every
data-bound layer kind forces) the loop raises `AttributeError` at
`data.column_to_values`, which `Data` does not define, and aborts without
writing that entry's file. -/
theorem csv_export_characterization (ops : List FigOp) :
    allDistinct (run_ops ops).dataIds = true ∧
    (∀ d, d ∈ (run_ops ops).dataIds ↔ d ∈ referencedTables (run_ops ops)) ∧
    ((∀ d ∈ (run_ops ops).dataIds, requiresConversion (run_ops ops) d = false) →
      save_csv_files (run_ops ops)
        = ((run_ops ops).dataIds.map (fun d => "data_" ++ toString d ++ ".csv"), none)) ∧
    (∀ d ∈ (run_ops ops).dataIds, requiresConversion (run_ops ops) d = true →
      (save_csv_files (run_ops ops)).2.isSome = true) := by
  have main : ∀ (F : Figure),
      (allDistinct F.dataIds = true ∧ ∀ d, d ∈ F.dataIds ↔ d ∈ referencedTables F) →
      allDistinct (ops.foldl apply_op F).dataIds = true ∧
        ∀ d, d ∈ (ops.foldl apply_op F).dataIds
          ↔ d ∈ referencedTables (ops.foldl apply_op F) := by
    induction ops with
    | nil => intro F h; exact h
    | cons op rest ih =>
      intro F h
      exact ih _ (apply_op_inv F op h)
  have base : allDistinct figure0.dataIds = true ∧
      ∀ d, d ∈ figure0.dataIds ↔ d ∈ referencedTables figure0 := by
    refine ⟨rfl, fun d => ?_⟩
    simp [figure0, referencedTables, allLayers]
  obtain ⟨h1, h2⟩ := main figure0 base
  exact ⟨h1, h2, fun h => saveCsvGo_all_ok _ _ h,
    fun d hd h => saveCsvGo_error _ _ d hd h⟩

/-- Witness for `csv_export_characterization`: the empty session exports
cleanly with zero files, and the one-markers session aborts with
`AttributeError`. -/
theorem csv_export_characterization_witness :
    save_csv_files (run_ops [])
      = ((run_ops []).dataIds.map (fun d => "data_" ++ toString d ++ ".csv"), none) ∧
    (save_csv_files (run_ops [FigOp.figAdd exSpecA])).2.isSome = true := by
  obtain ⟨_, _, h3, _⟩ := csv_export_characterization []
  obtain ⟨_, _, _, h4⟩ := csv_export_characterization [FigOp.figAdd exSpecA]
  refine ⟨h3 ?_, h4 10 (by decide) (by decide)⟩
  intro d hd
  simp [run_ops, figure0] at hd

end AasTs
